import Mathlib

/-
Verification of the HTTP adapter layer of the geopy repository
(src/geopy/adapters.py) via a shallow embedding.

The adapters are modelled as pure functions over an explicit environment:
  * the outcome of the underlying network call (urllib's `urlopen` /
    requests' `session.get`) is an input value (`UrlopenOutcome` /
    `ReqOutcome`);
  * Python's `str(bytes, encoding)` is an oracle `Decoder`;
  * `json.loads` / `Response.json` is an oracle `String → Option J`;
  * Python exceptions are modelled by `Except GeoError`.
Exception *types* raised by the environment are modelled by boolean
`isinstance` flags on an error descriptor, so that the `elif` chains of the
source translate literally (including Python subclass overlaps, e.g. an
exception may be both a ConnectionError and a Timeout).
-/

/-- Bytes of an HTTP response body, as a list of byte values. -/
abbrev Bytes := List Nat

/-- Oracle for Python `str(body_bytes, encoding=encoding)`: given an
encoding name and the bytes, return the decoded string, or `none` when
Python would raise a `ValueError`. -/
abbrev Decoder := String → Bytes → Option String

/-- Boolean substring test, modelling Python's `needle in haystack` for a
nonempty needle: `leadHas pat s` tests whether `pat` is an initial segment
of `s`. -/
def leadHas : List Char → List Char → Bool
  | [], _ => true
  | _ :: _, [] => false
  | a :: as, b :: bs => a == b && leadHas as bs

/-- Boolean substring occurrence test on character lists. -/
def anyHas : List Char → List Char → Bool
  | pat, [] => pat.isEmpty
  | pat, c :: rest => leadHas pat (c :: rest) || anyHas pat rest

/-- Python's `pat in s` substring test on strings. -/
def strHas (s pat : String) : Bool :=
  anyHas pat.data s.data

/-- The closed set of exceptions the adapter layer is allowed to raise:
`AdapterHTTPError` (with `status_code` and `text` attributes, the latter
possibly `None`) and the four geopy exception classes used by
`adapters.py`. -/
inductive GeoError where
  | adapterHTTPError (message : String) (status_code : Nat) (text : Option String)
  | geocoderTimedOut (message : String)
  | geocoderUnavailable (message : String)
  | geocoderServiceError (message : String)
  | geocoderParseError (message : String)
deriving Repr, DecidableEq

/-- A response object as seen by `URLLibAdapter._decode_page`: the charset
advertised by `headers.get_content_charset()` (if any), whether `read()`
succeeds, the bytes it returns when it does, and the status code returned
by `getcode()`. -/
structure Page where
  contentCharset : Option String
  readOk : Bool
  bodyBytes : Bytes
  code : Nat
deriving Repr, DecidableEq

/-- An exception raised by `urlopen`, described by its message
(`str(error.args[0])` or `str(error)`) and `isinstance` flags for the
classes tested in `URLLibAdapter.get_text`; an `HTTPError` additionally
carries its status code and is itself readable as a page. -/
structure PyError where
  message : String
  isHTTPError : Bool
  code : Nat
  page : Page
  isURLError : Bool
  isSocketTimeout : Bool
  isSSLError : Bool
deriving Repr, DecidableEq

/-- Outcome of `self.urlopen(req, timeout=timeout)`: a response page, or a
raised exception. -/
inductive UrlopenOutcome where
  | ok (page : Page)
  | err (e : PyError)
deriving Repr, DecidableEq

namespace URLLibAdapter

/-- Embedding of `URLLibAdapter._decode_page`: pick the advertised charset
defaulting to `"utf-8"`, read the body (a read failure raises
`GeocoderServiceError`), then decode (a decode failure raises
`GeocoderParseError`). -/
def decode_page (dec : Decoder) (page : Page) : Except GeoError String :=
  let encoding := page.contentCharset.getD "utf-8"
  if page.readOk then
    match dec encoding page.bodyBytes with
    | some s => .ok s
    | none => .error (.geocoderParseError "Unable to decode the response bytes")
  else
    .error (.geocoderServiceError "Unable to read the response")

/-- Embedding of `URLLibAdapter._read_http_error_body`: decode the error
response, swallowing every exception (logged at debug level in the source)
and reporting the body as absent. -/
def read_http_error_body (dec : Decoder) (page : Page) : Option String :=
  match decode_page dec page with
  | .ok s => some s
  | .error _ => none

/-- Embedding of `URLLibAdapter.get_text`. The `match`/`if` chain mirrors
the source's `except` branch (`isinstance` tests in order: `HTTPError`,
`URLError`, `SocketTimeout`, `SSLError`, with fall-through to
`GeocoderServiceError`) and its `else` branch (decode the page, then fail
with `AdapterHTTPError` when the status code is ≥ 400). -/
def get_text (dec : Decoder) (o : UrlopenOutcome) : Except GeoError String :=
  match o with
  | .err e =>
    if e.isHTTPError then
      .error (.adapterHTTPError e.message e.code (read_http_error_body dec e.page))
    else if e.isURLError then
      if strHas e.message "timed out" then
        .error (.geocoderTimedOut "Service timed out")
      else if strHas e.message "unreachable" then
        .error (.geocoderUnavailable "Service not available")
      else
        .error (.geocoderServiceError e.message)
    else if e.isSocketTimeout then
      .error (.geocoderTimedOut "Service timed out")
    else if e.isSSLError then
      if strHas e.message "timed out" then
        .error (.geocoderTimedOut "Service timed out")
      else
        .error (.geocoderServiceError e.message)
    else
      .error (.geocoderServiceError e.message)
  | .ok page =>
    match decode_page dec page with
    | .error ge => .error ge
    | .ok text =>
      if page.code ≥ 400 then
        .error (.adapterHTTPError "Non-successful status code" page.code (some text))
      else
        .ok text

/-- Embedding of `URLLibAdapter.get_json`: call `get_text`, then
`json.loads` (the oracle `jsonLoads`); a parse failure raises
`GeocoderParseError` carrying the raw text. -/
def get_json (J : Type) (jsonLoads : String → Option J) (dec : Decoder)
    (o : UrlopenOutcome) : Except GeoError J :=
  match get_text dec o with
  | .error e => .error e
  | .ok text =>
    match jsonLoads text with
    | some v => .ok v
    | none =>
      .error (.geocoderParseError
        ("Could not deserialize using deserializer:\n" ++ text))

end URLLibAdapter

/-- A `requests` response as used by `RequestsAdapter`: `status_code` and
the session-decoded `text` (the library's own charset sniffing has already
been applied by the environment). -/
structure Resp where
  status_code : Nat
  text : String
deriving Repr, DecidableEq

/-- An exception raised by `session.get`, described by its message
(`str(error)`) and `isinstance` flags for the classes tested in
`RequestsAdapter._request`. Several flags may hold at once (e.g.
`requests.ConnectTimeout` is both a `ConnectionError` and a `Timeout`). -/
structure ReqError where
  message : String
  isSocketTimeout : Bool
  isSSLError : Bool
  isConnectionError : Bool
  isTimeout : Bool
deriving Repr, DecidableEq

/-- Outcome of `self.session.get(url, timeout=timeout, headers=headers)`:
a response, or a raised exception. -/
inductive ReqOutcome where
  | ok (resp : Resp)
  | err (e : ReqError)
deriving Repr, DecidableEq

namespace RequestsAdapter

/-- Embedding of `RequestsAdapter._request`: the `isinstance` chain
(`SocketTimeout`, `SSLError` with a "timed out" substring test,
`requests.ConnectionError`, `requests.Timeout`, fall-through to
`GeocoderServiceError`), and the status-code check on a received
response. -/
def request (o : ReqOutcome) : Except GeoError Resp :=
  match o with
  | .err e =>
    if e.isSocketTimeout then
      .error (.geocoderTimedOut "Service timed out")
    else if e.isSSLError then
      if strHas e.message "timed out" then
        .error (.geocoderTimedOut "Service timed out")
      else
        .error (.geocoderServiceError e.message)
    else if e.isConnectionError then
      .error (.geocoderUnavailable e.message)
    else if e.isTimeout then
      .error (.geocoderTimedOut "Service timed out")
    else
      .error (.geocoderServiceError e.message)
  | .ok resp =>
    if resp.status_code ≥ 400 then
      .error (.adapterHTTPError "Non-successful status code" resp.status_code
        (some resp.text))
    else
      .ok resp

/-- Embedding of `RequestsAdapter.get_text`: `_request`, then the decoded
response text. -/
def get_text (o : ReqOutcome) : Except GeoError String :=
  match request o with
  | .error e => .error e
  | .ok resp => .ok resp.text

/-- Embedding of `RequestsAdapter.get_json`: `_request`, then
`resp.json()` — modelled as JSON-parsing the decoded response text via the
oracle `jsonLoads`; a parse failure raises `GeocoderParseError` carrying
`resp.text`. -/
def get_json (J : Type) (jsonLoads : String → Option J)
    (o : ReqOutcome) : Except GeoError J :=
  match request o with
  | .error e => .error e
  | .ok resp =>
    match jsonLoads resp.text with
    | some v => .ok v
    | none =>
      .error (.geocoderParseError
        ("Could not deserialize using deserializer:\n" ++ resp.text))

end RequestsAdapter

/-- A proxy mapping, scheme name to proxy endpoint. -/
abbrev ProxyMap := List (String × String)

/-- The opener built by `URLLibAdapter.__init__` via `build_opener`,
recording the TLS context bound into the `HTTPSHandler` and the proxy
mapping bound into the `ProxyHandler`. `C` is the (opaque) type of SSL
contexts. -/
structure Opener (C : Type) where
  httpsContext : Option C
  proxies : ProxyMap

/-- Model of urllib's `build_opener`: when no explicit `ProxyHandler` is
supplied, `build_opener` installs one itself, which picks up the ambient
environment proxies (`HTTP_PROXY` etc.); an explicitly supplied handler
binds exactly its own mapping and the environment is ignored. -/
def build_opener (C : Type) (envProxies : ProxyMap) (ctx : Option C)
    (explicitProxies : Option ProxyMap) : Opener C :=
  { httpsContext := ctx, proxies := explicitProxies.getD envProxies }

namespace URLLibAdapter

/-- Embedding of `URLLibAdapter.__init__`: build an opener from an
`HTTPSHandler` bound to the given context and a `ProxyHandler` bound to
exactly the given mapping — the handler is passed explicitly even for an
empty mapping, so that system proxies are never picked up. -/
def adapterInit (C : Type) (envProxies : ProxyMap) (proxies : ProxyMap)
    (ctx : Option C) : Opener C :=
  build_opener C envProxies ctx (some proxies)

end URLLibAdapter

/-- State of a `requests.Session` relevant to `RequestsAdapter.__init__`:
whether environment settings (proxies etc.) are trusted, the session's
proxy mapping (`None` or a dict), and the SSL context of the adapter
mounted for `https://`. A fresh session trusts the environment and has an
empty proxy dict. -/
structure SessionModel (C : Type) where
  trust_env : Bool
  proxies : Option ProxyMap
  mountedHttpsContext : Option C

namespace RequestsAdapter

/-- Embedding of `RequestsAdapter.__init__`: create a session (fresh
sessions have `trust_env = True` and empty proxies), disable `trust_env`
when an explicit (non-`None`) proxies value is given, assign the proxies
value, and mount an SSL-context-aware adapter for `https://`. -/
def adapterInit (C : Type) (proxies : Option ProxyMap) (ctx : Option C) :
    SessionModel C :=
  let s : SessionModel C :=
    { trust_env := true, proxies := some [], mountedHttpsContext := none }
  let s := if proxies.isSome then { s with trust_env := false } else s
  let s := { s with proxies := proxies }
  { s with mountedHttpsContext := ctx }

/-- A live `requests.Session` as relevant to teardown: its pooled
keep-alive connections and whether it has been closed. -/
structure LiveSession where
  openConnections : List Nat
  closed : Bool
deriving Repr, DecidableEq

/-- Model of the external `requests.Session.close`: releases all pooled
connections and marks the session closed; closing an already-closed
session is a no-op that does not raise. -/
def sessionClose (_s : LiveSession) : LiveSession :=
  { openConnections := [], closed := true }

/-- Embedding of `RequestsAdapter.__del__`: close the session. `__del__`
is Python's garbage-collection finalizer — this cleanup runs on implicit
finalization, per the source comment. -/
def del (s : LiveSession) : LiveSession :=
  sessionClose s

/-- The methods defined by `class RequestsAdapter` in the source, by
name. -/
def methodNames : List String :=
  ["__init__", "__del__", "get_text", "get_json", "_request"]

/-- The methods of `RequestsAdapter` whose bodies call
`self.session.close()`, by name. -/
def sessionCloseCallers : List String :=
  ["__del__"]

end RequestsAdapter

namespace RequestsHTTPWithSSLContextAdapter

/-- Instance state of `RequestsHTTPWithSSLContextAdapter`: the custom SSL
context given at construction (or `None`) and the per-instance
`__urllib3_warned` flag. -/
structure CtxAdapter (C : Type) where
  ssl_context : Option C
  urllib3_warned : Bool
deriving Repr, DecidableEq

/-- Embedding of `RequestsHTTPWithSSLContextAdapter.__init__`: store the
context, initialise the warned flag to false. -/
def adapterInit (C : Type) (ctx : Option C) : CtxAdapter C :=
  { ssl_context := ctx, urllib3_warned := false }

/-- Splitting of a character list at `'.'` separators, with an accumulator
for the current component (kept reversed). -/
def splitDotAux : List Char → List Char → List String
  | acc, [] => [String.mk acc.reverse]
  | acc, c :: rest =>
    if c = '.' then String.mk acc.reverse :: splitDotAux [] rest
    else splitDotAux (c :: acc) rest

/-- Python's `version.split('.')`: the dot-separated components of a
version string (an empty string yields one empty component, as in
Python). -/
def pySplitDot (s : String) : List String :=
  splitDotAux [] s.data

/-- Accumulating decimal parse of a digit run: `none` as soon as a
non-digit character is met. -/
def natOfDigits : Nat → List Char → Option Nat
  | acc, [] => some acc
  | acc, c :: rest =>
    if c.isDigit then natOfDigits (acc * 10 + (c.toNat - 48)) rest
    else none

/-- Python's `int(s)` on a plain decimal literal with an optional leading
minus sign: `none` when Python would raise a `ValueError` (empty string,
bare sign, or any non-digit character). -/
def parseInt (s : String) : Option Int :=
  match s.data with
  | [] => none
  | '-' :: [] => none
  | '-' :: c :: rest => (natOfDigits 0 (c :: rest)).map (fun n => -(n : Int))
  | cs => (natOfDigits 0 cs).map (fun n => (n : Int))

/-- Embedding of `silent_int` inside `__warn_if_old_urllib3`: parse a
dot-separated version component as an integer, treating a `ValueError` as
0. -/
def silent_int (s : String) : Int :=
  (parseInt s).getD 0

/-- The parsed urllib3 version: `silent_int` applied to every
dot-separated component of `urllib3.__version__`. -/
def urllib3VersionTuple (ver : String) : List Int :=
  (pySplitDot ver).map silent_int

/-- Python's lexicographic comparison of integer tuples, on lists: a
strict prefix is smaller, otherwise compare the first differing
component. -/
def tupleLt : List Int → List Int → Bool
  | [], [] => false
  | [], _ :: _ => true
  | _ :: _, [] => false
  | a :: as, b :: bs =>
    if a < b then true
    else if b < a then false
    else tupleLt as bs

/-- Embedding of `__warn_if_old_urllib3`: if the instance has already
warned, do nothing; otherwise set the flag (before the version check) and
emit the warning exactly when the parsed version tuple is below
`(1, 24, 2)`. Returns whether a warning was emitted together with the new
instance state. -/
def warnIfOldUrllib3 (C : Type) (ver : String) (a : CtxAdapter C) :
    Bool × CtxAdapter C :=
  if a.urllib3_warned then
    (false, a)
  else
    (tupleLt (urllib3VersionTuple ver) [1, 24, 2],
     { a with urllib3_warned := true })

/-- Keyword arguments of the pool-manager / proxy-manager factories, as
far as this adapter touches them: the `ssl_context` entry. -/
structure PoolKwargs (C : Type) where
  ssl_context : Option C
deriving Repr, DecidableEq

/-- Embedding of `init_poolmanager`: when a custom context is present,
inject it into the kwargs passed on to the superclass factory and run the
one-time version warning. Returns the kwargs the superclass receives, the
warning emission flag, and the new instance state. -/
def init_poolmanager (C : Type) (ver : String) (a : CtxAdapter C)
    (kw : PoolKwargs C) : PoolKwargs C × Bool × CtxAdapter C :=
  match a.ssl_context with
  | some c =>
    let r := warnIfOldUrllib3 C ver a
    ({ kw with ssl_context := some c }, r.1, r.2)
  | none => (kw, false, a)

/-- Embedding of `proxy_manager_for`: same injection and warning as
`init_poolmanager`, applied to the forward-proxy connection factory. -/
def proxy_manager_for (C : Type) (ver : String) (a : CtxAdapter C)
    (kw : PoolKwargs C) : PoolKwargs C × Bool × CtxAdapter C :=
  match a.ssl_context with
  | some c =>
    let r := warnIfOldUrllib3 C ver a
    ({ kw with ssl_context := some c }, r.1, r.2)
  | none => (kw, false, a)

/-- The certificate fields of an `urllib3` connection that
`requests`' `cert_verify` may populate. -/
structure Conn where
  ca_certs : Option String
  ca_cert_dir : Option String
  cert_file : Option String
  key_file : Option String
deriving Repr, DecidableEq

/-- Embedding of `RequestsHTTPWithSSLContextAdapter.cert_verify`: run the
superclass `cert_verify` (the oracle `superVerify`, which may populate the
certificate fields), then, when a custom context is present, clear
`ca_certs`, `ca_cert_dir`, `cert_file` and `key_file` so that requests
cannot add any certificates to the custom context. -/
def cert_verify (C : Type) (superVerify : Conn → Conn) (a : CtxAdapter C)
    (conn : Conn) : Conn :=
  let conn := superVerify conn
  match a.ssl_context with
  | some _ =>
    { conn with ca_certs := none, ca_cert_dir := none,
                cert_file := none, key_file := none }
  | none => conn

/-- The two operations of a pooled adapter's lifetime that bind the SSL
context: constructing the primary pool manager and constructing a proxy
manager. -/
inductive PoolOp where
  | initPool
  | proxyMan
deriving Repr, DecidableEq

/-- Run one pool operation on the adapter state (with kwargs initially
lacking an `ssl_context` entry), returning whether the urllib3 warning was
emitted and the new state. -/
def applyPoolOp (C : Type) (ver : String) (a : CtxAdapter C) (op : PoolOp) :
    Bool × CtxAdapter C :=
  match op with
  | .initPool =>
    let r := init_poolmanager C ver a { ssl_context := none }
    (r.2.1, r.2.2)
  | .proxyMan =>
    let r := proxy_manager_for C ver a { ssl_context := none }
    (r.2.1, r.2.2)

/-- Total number of urllib3 warnings emitted by a sequence of pool
operations on an adapter instance. -/
def warnCount (C : Type) (ver : String) : CtxAdapter C → List PoolOp → Nat
  | _, [] => 0
  | a, op :: rest =>
    (if (applyPoolOp C ver a op).1 then 1 else 0)
      + warnCount C ver (applyPoolOp C ver a op).2 rest

/-- A fresh SSL-context adapter instance over a trivial context type, used
for concrete evaluations. -/
def freshCtxAdapterU : CtxAdapter Unit :=
  adapterInit Unit (some ())

end RequestsHTTPWithSSLContextAdapter

/-- A decoder oracle for which every decode attempt fails with a
`ValueError` (undecodable bytes). -/
def decNone : Decoder := fun _ _ => none

/-- A decoder oracle returning the fixed text "html" for any input. -/
def decHtml : Decoder := fun _ _ => some "html"

/-- A decoder oracle that succeeds (with the fixed text "ea") only for the
"latin-1" encoding. -/
def decLatin : Decoder := fun enc _ =>
  if enc = "latin-1" then some "ea" else none

/-- A JSON-parsing oracle for which no text is valid JSON. -/
def jlNone : String → Option Nat := fun _ => none

/-- A 404 response page whose body reads fine as bytes. -/
def page404 : Page :=
  { contentCharset := none, readOk := true, bodyBytes := [60, 104], code := 404 }

/-- A 200 response page with no advertised charset. -/
def page200 : Page :=
  { contentCharset := none, readOk := true, bodyBytes := [104], code := 200 }

/-- A 200 response page advertising the "latin-1" charset. -/
def pageLatin : Page :=
  { contentCharset := some "latin-1", readOk := true, bodyBytes := [233],
    code := 200 }

/-- A placeholder page for errors that carry no meaningful page. -/
def pageDefault : Page :=
  { contentCharset := none, readOk := true, bodyBytes := [], code := 0 }

/-- An `HTTPError` with status 500 whose own body is undecodable under
`decNone`. -/
def errHTTP500 : PyError :=
  { message := "Internal Server Error", isHTTPError := true, code := 500,
    page := page404, isURLError := true, isSocketTimeout := false,
    isSSLError := false }

/-- A `URLError` whose message contains "timed out". -/
def errURLTimedOut : PyError :=
  { message := "urlopen error timed out", isHTTPError := false, code := 0,
    page := pageDefault, isURLError := true, isSocketTimeout := false,
    isSSLError := false }

/-- A `URLError` whose message contains "unreachable". -/
def errURLUnreach : PyError :=
  { message := "Network is unreachable", isHTTPError := false, code := 0,
    page := pageDefault, isURLError := true, isSocketTimeout := false,
    isSSLError := false }

/-- A raw socket timeout. -/
def errSock : PyError :=
  { message := "timed out", isHTTPError := false, code := 0,
    page := pageDefault, isURLError := false, isSocketTimeout := true,
    isSSLError := false }

/-- An `SSLError` whose message contains "timed out". -/
def errSSLTimedOut : PyError :=
  { message := "The read operation timed out", isHTTPError := false,
    code := 0, page := pageDefault, isURLError := false,
    isSocketTimeout := false, isSSLError := true }

/-- An exception matching none of the tested classes. -/
def errOther : PyError :=
  { message := "boom", isHTTPError := false, code := 0, page := pageDefault,
    isURLError := false, isSocketTimeout := false, isSSLError := false }

/-- A socket timeout raised through `session.get`. -/
def rerrSock : ReqError :=
  { message := "timed out", isSocketTimeout := true, isSSLError := false,
    isConnectionError := false, isTimeout := false }

/-- An `SSLError` raised through `session.get`, message containing "timed
out". -/
def rerrSSLTimedOut : ReqError :=
  { message := "The handshake operation timed out", isSocketTimeout := false,
    isSSLError := true, isConnectionError := false, isTimeout := false }

/-- A `requests.ConnectionError`. -/
def rerrConn : ReqError :=
  { message := "Failed to establish a new connection",
    isSocketTimeout := false, isSSLError := false, isConnectionError := true,
    isTimeout := false }

/-- A generic `requests.Timeout` (not a `ConnectionError`). -/
def rerrTimeout : ReqError :=
  { message := "Read timeout", isSocketTimeout := false, isSSLError := false,
    isConnectionError := false, isTimeout := true }

/-- An unclassified exception raised through `session.get`. -/
def rerrOther : ReqError :=
  { message := "weird failure", isSocketTimeout := false, isSSLError := false,
    isConnectionError := false, isTimeout := false }

/-- A 404 response from `session.get`. -/
def resp404 : Resp := { status_code := 404, text := "not found" }

/-- A 200 response from `session.get`. -/
def resp200 : Resp := { status_code := 200, text := "ok" }

/-- A connection whose certificate fields are all populated. -/
def connFull : RequestsHTTPWithSSLContextAdapter.Conn :=
  { ca_certs := some "ca", ca_cert_dir := some "cadir",
    cert_file := some "cert", key_file := some "key" }

/-- An SSL-context adapter instance over `Nat` contexts holding context 7. -/
def ctxAdapterSome : RequestsHTTPWithSSLContextAdapter.CtxAdapter Nat :=
  RequestsHTTPWithSSLContextAdapter.adapterInit Nat (some 7)

/-- An SSL-context adapter instance constructed without a custom context. -/
def ctxAdapterNone : RequestsHTTPWithSSLContextAdapter.CtxAdapter Nat :=
  RequestsHTTPWithSSLContextAdapter.adapterInit Nat none

/-- Empty pool-manager kwargs over `Nat` contexts. -/
def kwEmpty : RequestsHTTPWithSSLContextAdapter.PoolKwargs Nat :=
  { ssl_context := none }

/-- Claim C1: for both adapters, `get_json` returns exactly the value
obtained by JSON-parsing the text that `get_text` returns for the same
arguments; when that text is not valid JSON, `get_json` fails with
`GeocoderParseError` whose message includes the raw response text (here:
the message is the deserializer header followed by the raw text), and an
error from `get_text` is passed through unchanged. -/
theorem claim_C1_get_json_refines_get_text :
    ∀ (J : Type) (jsonLoads : String → Option J) (dec : Decoder)
      (o : UrlopenOutcome) (ro : ReqOutcome) (t : String) (v : J)
      (e : GeoError),
    (URLLibAdapter.get_text dec o = .ok t → jsonLoads t = some v →
       URLLibAdapter.get_json J jsonLoads dec o = .ok v)
  ∧ (URLLibAdapter.get_text dec o = .ok t → jsonLoads t = none →
       URLLibAdapter.get_json J jsonLoads dec o =
         .error (.geocoderParseError
           ("Could not deserialize using deserializer:\n" ++ t)))
  ∧ (URLLibAdapter.get_text dec o = .error e →
       URLLibAdapter.get_json J jsonLoads dec o = .error e)
  ∧ (RequestsAdapter.get_text ro = .ok t → jsonLoads t = some v →
       RequestsAdapter.get_json J jsonLoads ro = .ok v)
  ∧ (RequestsAdapter.get_text ro = .ok t → jsonLoads t = none →
       RequestsAdapter.get_json J jsonLoads ro =
         .error (.geocoderParseError
           ("Could not deserialize using deserializer:\n" ++ t)))
  ∧ (RequestsAdapter.get_text ro = .error e →
       RequestsAdapter.get_json J jsonLoads ro = .error e) := by
  intro J jsonLoads dec o ro t v e
  refine ⟨?_, ?_, ?_, ?_, ?_, ?_⟩
  · intro h hj
    simp [URLLibAdapter.get_json, h, hj]
  · intro h hj
    simp [URLLibAdapter.get_json, h, hj]
  · intro h
    simp [URLLibAdapter.get_json, h]
  · intro h hj
    cases hr : RequestsAdapter.request ro with
    | error e2 => simp [RequestsAdapter.get_text, hr] at h
    | ok resp =>
      simp [RequestsAdapter.get_text, hr] at h
      simp [RequestsAdapter.get_json, hr, h, hj]
  · intro h hj
    cases hr : RequestsAdapter.request ro with
    | error e2 => simp [RequestsAdapter.get_text, hr] at h
    | ok resp =>
      simp [RequestsAdapter.get_text, hr] at h
      simp [RequestsAdapter.get_json, hr, h, hj]
  · intro h
    cases hr : RequestsAdapter.request ro with
    | error e2 =>
      simp [RequestsAdapter.get_text, hr] at h
      simp [RequestsAdapter.get_json, hr, h]
    | ok resp => simp [RequestsAdapter.get_text, hr] at h

/-- Witness for claim C1 at concrete inputs: a 200 response whose decoded
text is not valid JSON makes both adapters' `get_json` fail with
`GeocoderParseError` carrying the raw text. -/
theorem claim_C1_get_json_refines_get_text_witness :
    URLLibAdapter.get_json Nat jlNone decHtml (.ok page200)
      = .error (.geocoderParseError
          "Could not deserialize using deserializer:\nhtml")
  ∧ RequestsAdapter.get_json Nat jlNone (.ok resp200)
      = .error (.geocoderParseError
          "Could not deserialize using deserializer:\nok") :=
  ⟨(claim_C1_get_json_refines_get_text Nat jlNone decHtml (.ok page200)
      (.ok resp200) "html" 0 (.geocoderServiceError "")).2.1 rfl rfl,
   (claim_C1_get_json_refines_get_text Nat jlNone decHtml (.ok page200)
      (.ok resp200) "ok" 0 (.geocoderServiceError "")).2.2.2.2.1 rfl rfl⟩

/-- Claim C2 counterexample: in `URLLibAdapter.get_text`, when a response
with status 404 is delivered on the non-exception path and its body cannot
be decoded, the call fails with `GeocoderParseError` — not with the
claimed `AdapterHTTPError` carrying the status code. The body is decoded
before the status check, so the decode error masks the HTTP error on this
path. -/
theorem claim_C2_decode_masks_status_counterexample :
    URLLibAdapter.get_text decNone (.ok page404)
      = .error (.geocoderParseError "Unable to decode the response bytes")
  ∧ URLLibAdapter.get_text decNone (.ok page404)
      ≠ .error (.adapterHTTPError "Non-successful status code" 404 none)
  ∧ URLLibAdapter.get_text decNone (.ok page404)
      ≠ .error (.adapterHTTPError "Non-successful status code" 404
          (some "<h")) := by
  have h1 : URLLibAdapter.get_text decNone (.ok page404)
      = .error (.geocoderParseError "Unable to decode the response bytes") := rfl
  refine ⟨h1, ?_, ?_⟩ <;> rw [h1] <;> simp

/-- Claim C2 (amended): on the `HTTPError`-exception path,
`URLLibAdapter.get_text` always fails with `AdapterHTTPError` carrying the
status code, and any failure to read or decode the diagnostic body is
swallowed by `_read_http_error_body` (body reported as absent); on the
non-exception path, the body is decoded before the status check, so a
decode or read failure there propagates as its own error instead of the
status-code error. -/
theorem claim_C2_http_error_body_best_effort :
    ∀ (dec : Decoder) (e : PyError) (page : Page) (er ge : GeoError),
    (e.isHTTPError = true →
       URLLibAdapter.get_text dec (.err e)
         = .error (.adapterHTTPError e.message e.code
             (URLLibAdapter.read_http_error_body dec e.page)))
  ∧ (URLLibAdapter.decode_page dec e.page = .error ge →
       URLLibAdapter.read_http_error_body dec e.page = none)
  ∧ (URLLibAdapter.decode_page dec page = .error er →
       URLLibAdapter.get_text dec (.ok page) = .error er) := by
  intro dec e page er ge
  refine ⟨?_, ?_, ?_⟩
  · intro h
    simp [URLLibAdapter.get_text, h]
  · intro h
    simp [URLLibAdapter.read_http_error_body, h]
  · intro h
    simp [URLLibAdapter.get_text, h]

/-- Witness for the amended claim C2: a 500 `HTTPError` whose body is
undecodable still fails with `AdapterHTTPError` (status 500, absent
body). -/
theorem claim_C2_http_error_body_best_effort_witness :
    URLLibAdapter.get_text decNone (.err errHTTP500)
      = .error (.adapterHTTPError "Internal Server Error" 500 none)
  ∧ URLLibAdapter.read_http_error_body decNone page404 = none :=
  ⟨(claim_C2_http_error_body_best_effort decNone errHTTP500 pageDefault
      (.geocoderParseError "Unable to decode the response bytes")
      (.geocoderParseError "Unable to decode the response bytes")).1 rfl,
   (claim_C2_http_error_body_best_effort decNone errHTTP500 pageDefault
      (.geocoderParseError "Unable to decode the response bytes")
      (.geocoderParseError "Unable to decode the response bytes")).2.1 rfl⟩

/-- Claim C3: `URLLibAdapter.get_text` classifies every failure raised
before a response is obtained (the non-`HTTPError` exceptions) exactly as:
`URLError` with "timed out" in the message → `GeocoderTimedOut`;
`URLError` with "unreachable" → `GeocoderUnavailable`; a socket timeout →
`GeocoderTimedOut`; an `SSLError` with "timed out" → `GeocoderTimedOut`;
everything else → `GeocoderServiceError` carrying the message. The
codomain `Except GeoError` makes the closed set (these plus
`AdapterHTTPError` and `GeocoderParseError`) exhaustive. -/
theorem claim_C3_urllib_failure_classification :
    ∀ (dec : Decoder) (e : PyError), e.isHTTPError = false →
    (e.isURLError = true → strHas e.message "timed out" = true →
       URLLibAdapter.get_text dec (.err e)
         = .error (.geocoderTimedOut "Service timed out"))
  ∧ (e.isURLError = true → strHas e.message "timed out" = false →
       strHas e.message "unreachable" = true →
       URLLibAdapter.get_text dec (.err e)
         = .error (.geocoderUnavailable "Service not available"))
  ∧ (e.isURLError = true → strHas e.message "timed out" = false →
       strHas e.message "unreachable" = false →
       URLLibAdapter.get_text dec (.err e)
         = .error (.geocoderServiceError e.message))
  ∧ (e.isURLError = false → e.isSocketTimeout = true →
       URLLibAdapter.get_text dec (.err e)
         = .error (.geocoderTimedOut "Service timed out"))
  ∧ (e.isURLError = false → e.isSocketTimeout = false → e.isSSLError = true →
       strHas e.message "timed out" = true →
       URLLibAdapter.get_text dec (.err e)
         = .error (.geocoderTimedOut "Service timed out"))
  ∧ (e.isURLError = false → e.isSocketTimeout = false → e.isSSLError = true →
       strHas e.message "timed out" = false →
       URLLibAdapter.get_text dec (.err e)
         = .error (.geocoderServiceError e.message))
  ∧ (e.isURLError = false → e.isSocketTimeout = false → e.isSSLError = false →
       URLLibAdapter.get_text dec (.err e)
         = .error (.geocoderServiceError e.message)) := by
  intro dec e h0
  refine ⟨?_, ?_, ?_, ?_, ?_, ?_, ?_⟩ <;> intros <;>
    simp [URLLibAdapter.get_text, h0, *]

/-- Witness for claim C3: one concrete error per classification branch. -/
theorem claim_C3_urllib_failure_classification_witness :
    URLLibAdapter.get_text decNone (.err errURLTimedOut)
      = .error (.geocoderTimedOut "Service timed out")
  ∧ URLLibAdapter.get_text decNone (.err errURLUnreach)
      = .error (.geocoderUnavailable "Service not available")
  ∧ URLLibAdapter.get_text decNone (.err errSock)
      = .error (.geocoderTimedOut "Service timed out")
  ∧ URLLibAdapter.get_text decNone (.err errSSLTimedOut)
      = .error (.geocoderTimedOut "Service timed out")
  ∧ URLLibAdapter.get_text decNone (.err errOther)
      = .error (.geocoderServiceError "boom") :=
  ⟨(claim_C3_urllib_failure_classification decNone errURLTimedOut rfl).1
      rfl (by decide),
   (claim_C3_urllib_failure_classification decNone errURLUnreach rfl).2.1
      rfl (by decide) (by decide),
   (claim_C3_urllib_failure_classification decNone errSock rfl).2.2.2.1
      rfl rfl,
   (claim_C3_urllib_failure_classification decNone errSSLTimedOut
      rfl).2.2.2.2.1 rfl rfl rfl (by decide),
   (claim_C3_urllib_failure_classification decNone errOther rfl).2.2.2.2.2.2
      rfl rfl rfl⟩

/-- Claim C4: `RequestsAdapter._request` classifies a failure raised by
`session.get` exactly as: socket timeout → `GeocoderTimedOut`; `SSLError`
with "timed out" in the message → `GeocoderTimedOut`;
`requests.ConnectionError` → `GeocoderUnavailable` carrying the message;
`requests.Timeout` → `GeocoderTimedOut`; anything else →
`GeocoderServiceError` carrying the message; and a received response with
status ≥ 400 fails with `AdapterHTTPError` carrying the status code and
the session-decoded text (also through `get_text`). -/
theorem claim_C4_requests_failure_classification :
    ∀ (e : ReqError) (resp : Resp),
    (e.isSocketTimeout = true →
       RequestsAdapter.request (.err e)
         = .error (.geocoderTimedOut "Service timed out"))
  ∧ (e.isSocketTimeout = false → e.isSSLError = true →
       strHas e.message "timed out" = true →
       RequestsAdapter.request (.err e)
         = .error (.geocoderTimedOut "Service timed out"))
  ∧ (e.isSocketTimeout = false → e.isSSLError = true →
       strHas e.message "timed out" = false →
       RequestsAdapter.request (.err e)
         = .error (.geocoderServiceError e.message))
  ∧ (e.isSocketTimeout = false → e.isSSLError = false →
       e.isConnectionError = true →
       RequestsAdapter.request (.err e)
         = .error (.geocoderUnavailable e.message))
  ∧ (e.isSocketTimeout = false → e.isSSLError = false →
       e.isConnectionError = false → e.isTimeout = true →
       RequestsAdapter.request (.err e)
         = .error (.geocoderTimedOut "Service timed out"))
  ∧ (e.isSocketTimeout = false → e.isSSLError = false →
       e.isConnectionError = false → e.isTimeout = false →
       RequestsAdapter.request (.err e)
         = .error (.geocoderServiceError e.message))
  ∧ (resp.status_code ≥ 400 →
       RequestsAdapter.request (.ok resp)
         = .error (.adapterHTTPError "Non-successful status code"
             resp.status_code (some resp.text)))
  ∧ (resp.status_code ≥ 400 →
       RequestsAdapter.get_text (.ok resp)
         = .error (.adapterHTTPError "Non-successful status code"
             resp.status_code (some resp.text))) := by
  intro e resp
  refine ⟨?_, ?_, ?_, ?_, ?_, ?_, ?_, ?_⟩ <;> intros <;>
    simp [RequestsAdapter.get_text, RequestsAdapter.request, *]

/-- Witness for claim C4: one concrete error per classification branch and
a 404 response. -/
theorem claim_C4_requests_failure_classification_witness :
    RequestsAdapter.request (.err rerrSock)
      = .error (.geocoderTimedOut "Service timed out")
  ∧ RequestsAdapter.request (.err rerrSSLTimedOut)
      = .error (.geocoderTimedOut "Service timed out")
  ∧ RequestsAdapter.request (.err rerrConn)
      = .error (.geocoderUnavailable "Failed to establish a new connection")
  ∧ RequestsAdapter.request (.err rerrTimeout)
      = .error (.geocoderTimedOut "Service timed out")
  ∧ RequestsAdapter.request (.err rerrOther)
      = .error (.geocoderServiceError "weird failure")
  ∧ RequestsAdapter.get_text (.ok resp404)
      = .error (.adapterHTTPError "Non-successful status code" 404
          (some "not found")) :=
  ⟨(claim_C4_requests_failure_classification rerrSock resp404).1 rfl,
   (claim_C4_requests_failure_classification rerrSSLTimedOut resp404).2.1
      rfl rfl (by decide),
   (claim_C4_requests_failure_classification rerrConn resp404).2.2.2.1
      rfl rfl rfl,
   (claim_C4_requests_failure_classification rerrTimeout
      resp404).2.2.2.2.1 rfl rfl rfl rfl,
   (claim_C4_requests_failure_classification rerrOther
      resp404).2.2.2.2.2.1 rfl rfl rfl rfl,
   (claim_C4_requests_failure_classification rerrOther
      resp404).2.2.2.2.2.2.2 (by decide)⟩

/-- Claim C5: on a response with status < 400 whose body reads
successfully, `URLLibAdapter.get_text` returns the body bytes decoded with
the charset advertised in the content-type header (UTF-8 when none is
advertised), and fails with `GeocoderParseError` when the bytes cannot be
decoded in that charset. -/
theorem claim_C5_urllib_success_decoding :
    ∀ (dec : Decoder) (page : Page) (s : String),
      page.readOk = true → page.code < 400 →
    (dec (page.contentCharset.getD "utf-8") page.bodyBytes = some s →
       URLLibAdapter.get_text dec (.ok page) = .ok s)
  ∧ (dec (page.contentCharset.getD "utf-8") page.bodyBytes = none →
       URLLibAdapter.get_text dec (.ok page)
         = .error (.geocoderParseError "Unable to decode the response bytes")) := by
  intro dec page s hr h4
  have hnot : ¬ (page.code ≥ 400) := by omega
  constructor <;> intro hd <;>
    simp [URLLibAdapter.get_text, URLLibAdapter.decode_page, hr, hd, hnot]

/-- Witness for claim C5: a page advertising "latin-1" decodes with that
charset; a page with undecodable bytes fails with `GeocoderParseError`. -/
theorem claim_C5_urllib_success_decoding_witness :
    URLLibAdapter.get_text decLatin (.ok pageLatin) = .ok "ea"
  ∧ URLLibAdapter.get_text decNone (.ok page200)
      = .error (.geocoderParseError "Unable to decode the response bytes") :=
  ⟨(claim_C5_urllib_success_decoding decLatin pageLatin "ea" rfl
      (by decide)).1 (by decide),
   (claim_C5_urllib_success_decoding decNone page200 "" rfl
      (by decide)).2 rfl⟩

/-- Claim C6: an explicitly supplied proxy mapping — including the empty
mapping — is applied in place of any ambient environment proxy
configuration: `URLLibAdapter.__init__` always installs a `ProxyHandler`
bound to exactly the given mapping regardless of the environment proxies,
and `RequestsAdapter.__init__` disables the session's `trust_env` exactly
when the supplied proxies value is non-`None`, assigning exactly the given
value. -/
theorem claim_C6_explicit_proxies_override_environment :
    ∀ (C : Type) (env proxies : ProxyMap) (ctx ctx2 : Option C)
      (p : Option ProxyMap),
    (URLLibAdapter.adapterInit C env proxies ctx).proxies = proxies
  ∧ (URLLibAdapter.adapterInit C env [] ctx).proxies = []
  ∧ (RequestsAdapter.adapterInit C p ctx2).trust_env = p.isNone
  ∧ (RequestsAdapter.adapterInit C p ctx2).proxies = p := by
  intro C env proxies ctx ctx2 p
  refine ⟨rfl, rfl, ?_, ?_⟩ <;> cases p <;> rfl

/-- Claim C7: when a custom TLS context is supplied, that exact context is
injected into the kwargs of both `init_poolmanager` and
`proxy_manager_for`, and `cert_verify` clears the connection's `ca_certs`,
`ca_cert_dir`, `cert_file` and `key_file` fields after the superclass has
run; when no custom context is supplied, the kwargs and the connection are
passed through untouched. -/
theorem claim_C7_ssl_context_injection :
    ∀ (C : Type) (c : C) (ver : String)
      (a : RequestsHTTPWithSSLContextAdapter.CtxAdapter C)
      (kw : RequestsHTTPWithSSLContextAdapter.PoolKwargs C)
      (superVerify : RequestsHTTPWithSSLContextAdapter.Conn →
        RequestsHTTPWithSSLContextAdapter.Conn)
      (conn : RequestsHTTPWithSSLContextAdapter.Conn),
    (a.ssl_context = some c →
       (RequestsHTTPWithSSLContextAdapter.init_poolmanager C ver a
           kw).1.ssl_context = some c
     ∧ (RequestsHTTPWithSSLContextAdapter.proxy_manager_for C ver a
           kw).1.ssl_context = some c
     ∧ (RequestsHTTPWithSSLContextAdapter.cert_verify C superVerify a
           conn).ca_certs = none
     ∧ (RequestsHTTPWithSSLContextAdapter.cert_verify C superVerify a
           conn).ca_cert_dir = none
     ∧ (RequestsHTTPWithSSLContextAdapter.cert_verify C superVerify a
           conn).cert_file = none
     ∧ (RequestsHTTPWithSSLContextAdapter.cert_verify C superVerify a
           conn).key_file = none)
  ∧ (a.ssl_context = none →
       (RequestsHTTPWithSSLContextAdapter.init_poolmanager C ver a kw).1 = kw
     ∧ (RequestsHTTPWithSSLContextAdapter.proxy_manager_for C ver a kw).1 = kw
     ∧ RequestsHTTPWithSSLContextAdapter.cert_verify C superVerify a conn
         = superVerify conn) := by
  intro C c ver a kw superVerify conn
  constructor <;> intro h <;>
    simp [RequestsHTTPWithSSLContextAdapter.init_poolmanager,
      RequestsHTTPWithSSLContextAdapter.proxy_manager_for,
      RequestsHTTPWithSSLContextAdapter.cert_verify, h]

/-- Witness for claim C7: with context 7 bound, both factories receive
exactly that context and `cert_verify` clears all four certificate fields
that an identity superclass pass left populated; without a context,
everything is passed through. -/
theorem claim_C7_ssl_context_injection_witness :
    (RequestsHTTPWithSSLContextAdapter.init_poolmanager Nat "1.25.8"
        ctxAdapterSome kwEmpty).1.ssl_context = some 7
  ∧ (RequestsHTTPWithSSLContextAdapter.proxy_manager_for Nat "1.25.8"
        ctxAdapterSome kwEmpty).1.ssl_context = some 7
  ∧ (RequestsHTTPWithSSLContextAdapter.cert_verify Nat id ctxAdapterSome
        connFull).ca_certs = none
  ∧ (RequestsHTTPWithSSLContextAdapter.cert_verify Nat id ctxAdapterSome
        connFull).ca_cert_dir = none
  ∧ (RequestsHTTPWithSSLContextAdapter.cert_verify Nat id ctxAdapterSome
        connFull).cert_file = none
  ∧ (RequestsHTTPWithSSLContextAdapter.cert_verify Nat id ctxAdapterSome
        connFull).key_file = none
  ∧ RequestsHTTPWithSSLContextAdapter.cert_verify Nat id ctxAdapterNone
      connFull = connFull :=
  ⟨((claim_C7_ssl_context_injection Nat 7 "1.25.8" ctxAdapterSome kwEmpty id
      connFull).1 rfl).1,
   ((claim_C7_ssl_context_injection Nat 7 "1.25.8" ctxAdapterSome kwEmpty id
      connFull).1 rfl).2.1,
   ((claim_C7_ssl_context_injection Nat 7 "1.25.8" ctxAdapterSome kwEmpty id
      connFull).1 rfl).2.2.1,
   ((claim_C7_ssl_context_injection Nat 7 "1.25.8" ctxAdapterSome kwEmpty id
      connFull).1 rfl).2.2.2.1,
   ((claim_C7_ssl_context_injection Nat 7 "1.25.8" ctxAdapterSome kwEmpty id
      connFull).1 rfl).2.2.2.2.1,
   ((claim_C7_ssl_context_injection Nat 7 "1.25.8" ctxAdapterSome kwEmpty id
      connFull).1 rfl).2.2.2.2.2,
   ((claim_C7_ssl_context_injection Nat 7 "1.25.8" ctxAdapterNone kwEmpty id
      connFull).2 rfl).2.2⟩

/-- Once an instance's `urllib3_warned` flag is set, any pool operation
emits no warning and leaves the instance state unchanged. -/
theorem applyPoolOp_of_warned (C : Type) (ver : String)
    (a : RequestsHTTPWithSSLContextAdapter.CtxAdapter C)
    (op : RequestsHTTPWithSSLContextAdapter.PoolOp)
    (h : a.urllib3_warned = true) :
    RequestsHTTPWithSSLContextAdapter.applyPoolOp C ver a op = (false, a) := by
  cases op <;> cases hc : a.ssl_context <;>
    simp [RequestsHTTPWithSSLContextAdapter.applyPoolOp,
      RequestsHTTPWithSSLContextAdapter.init_poolmanager,
      RequestsHTTPWithSSLContextAdapter.proxy_manager_for,
      RequestsHTTPWithSSLContextAdapter.warnIfOldUrllib3, h, hc]

/-- An instance whose `urllib3_warned` flag is set emits no warning over
any sequence of pool operations. -/
theorem warnCount_of_warned (C : Type) (ver : String)
    (a : RequestsHTTPWithSSLContextAdapter.CtxAdapter C)
    (h : a.urllib3_warned = true)
    (ops : List RequestsHTTPWithSSLContextAdapter.PoolOp) :
    RequestsHTTPWithSSLContextAdapter.warnCount C ver a ops = 0 := by
  induction ops with
  | nil => rfl
  | cons op rest ih =>
    simp [RequestsHTTPWithSSLContextAdapter.warnCount,
      applyPoolOp_of_warned C ver a op h, ih]

/-- The first pool operation on a freshly constructed instance with a
custom context emits the warning exactly when the parsed urllib3 version
tuple is below `(1, 24, 2)`, and sets the per-instance flag. -/
theorem applyPoolOp_fresh (C : Type) (c : C) (ver : String)
    (op : RequestsHTTPWithSSLContextAdapter.PoolOp) :
    RequestsHTTPWithSSLContextAdapter.applyPoolOp C ver
        (RequestsHTTPWithSSLContextAdapter.adapterInit C (some c)) op
      = (RequestsHTTPWithSSLContextAdapter.tupleLt
           (RequestsHTTPWithSSLContextAdapter.urllib3VersionTuple ver)
           [1, 24, 2],
         { ssl_context := some c, urllib3_warned := true }) := by
  cases op <;>
    simp [RequestsHTTPWithSSLContextAdapter.applyPoolOp,
      RequestsHTTPWithSSLContextAdapter.init_poolmanager,
      RequestsHTTPWithSSLContextAdapter.proxy_manager_for,
      RequestsHTTPWithSSLContextAdapter.warnIfOldUrllib3,
      RequestsHTTPWithSSLContextAdapter.adapterInit]

/-- Claim C8: for an instance constructed with a custom TLS context, the
old-urllib3 warning is emitted at most once over any sequence of
pool-manager / proxy-manager constructions; it is emitted on the first
such construction exactly when the parsed urllib3 version tuple is below
`(1, 24, 2)`, and never again afterwards. The once-only flag is a field of
the instance state (`CtxAdapter`), hence per-instance rather than
process-global. -/
theorem claim_C8_urllib3_warning_once_per_instance :
    ∀ (C : Type) (c : C) (ver : String)
      (ops rest : List RequestsHTTPWithSSLContextAdapter.PoolOp)
      (op : RequestsHTTPWithSSLContextAdapter.PoolOp),
    RequestsHTTPWithSSLContextAdapter.warnCount C ver
        (RequestsHTTPWithSSLContextAdapter.adapterInit C (some c)) ops ≤ 1
  ∧ (RequestsHTTPWithSSLContextAdapter.applyPoolOp C ver
        (RequestsHTTPWithSSLContextAdapter.adapterInit C (some c)) op).1
      = RequestsHTTPWithSSLContextAdapter.tupleLt
          (RequestsHTTPWithSSLContextAdapter.urllib3VersionTuple ver)
          [1, 24, 2]
  ∧ RequestsHTTPWithSSLContextAdapter.warnCount C ver
        (RequestsHTTPWithSSLContextAdapter.applyPoolOp C ver
          (RequestsHTTPWithSSLContextAdapter.adapterInit C (some c)) op).2
        rest = 0 := by
  intro C c ver ops rest op
  refine ⟨?_, ?_, ?_⟩
  · cases ops with
    | nil => simp [RequestsHTTPWithSSLContextAdapter.warnCount]
    | cons op0 rest0 =>
      simp [RequestsHTTPWithSSLContextAdapter.warnCount,
        applyPoolOp_fresh C c ver op0,
        warnCount_of_warned C ver
          { ssl_context := some c, urllib3_warned := true } rfl rest0]
      split <;> omega
  · simp [applyPoolOp_fresh C c ver op]
  · simp [applyPoolOp_fresh C c ver op]
    exact warnCount_of_warned C ver
      { ssl_context := some c, urllib3_warned := true } rfl rest

/-- Claim C9 counterexample: `RequestsAdapter` defines no explicit
close/teardown method — the only method of the class that calls
`self.session.close()` is `__del__`, which is Python's implicit
garbage-collection finalizer, so teardown relies on implicit finalization
rather than an explicit operation. -/
theorem claim_C9_no_explicit_teardown_counterexample :
    RequestsAdapter.methodNames.contains "close" = false
  ∧ RequestsAdapter.sessionCloseCallers = ["__del__"]
  ∧ RequestsAdapter.methodNames.contains "__del__" = true := by
  decide

/-- Claim C9 (amended): the teardown `RequestsAdapter` does provide is its
`__del__` finalizer, which closes the session: it releases all pooled
connections, and running it a second time is a no-op that does not raise
(closing is idempotent). -/
theorem claim_C9_finalizer_teardown :
    ∀ (s : RequestsAdapter.LiveSession),
    (RequestsAdapter.del s).openConnections = []
  ∧ (RequestsAdapter.del s).closed = true
  ∧ RequestsAdapter.del (RequestsAdapter.del s) = RequestsAdapter.del s := by
  intro s
  exact ⟨rfl, rfl, rfl⟩

/-- Claim C10: in the old-urllib3 detection, every dot-separated component
of the version string that does not parse as a plain integer is treated as
0, so for every version string the (fresh instance) warning condition is
exactly that the tuple of int-or-zero components is lexicographically less
than `(1, 24, 2)`; in particular the pre-release "1.24.2rc1" parses to
`(1, 24, 0)` and triggers the warning, while "1.24.2" does not. -/
theorem claim_C10_version_components_int_or_zero :
    (∀ ver : String,
      (RequestsHTTPWithSSLContextAdapter.warnIfOldUrllib3 Unit ver
          RequestsHTTPWithSSLContextAdapter.freshCtxAdapterU).1
        = RequestsHTTPWithSSLContextAdapter.tupleLt
            ((RequestsHTTPWithSSLContextAdapter.pySplitDot ver).map
              (fun comp =>
                (RequestsHTTPWithSSLContextAdapter.parseInt comp).getD 0))
            [1, 24, 2])
  ∧ RequestsHTTPWithSSLContextAdapter.urllib3VersionTuple "1.24.2rc1"
      = [1, 24, 0]
  ∧ (RequestsHTTPWithSSLContextAdapter.warnIfOldUrllib3 Unit "1.24.2rc1"
        RequestsHTTPWithSSLContextAdapter.freshCtxAdapterU).1 = true
  ∧ (RequestsHTTPWithSSLContextAdapter.warnIfOldUrllib3 Unit "1.24.2"
        RequestsHTTPWithSSLContextAdapter.freshCtxAdapterU).1 = false := by
  refine ⟨fun ver => rfl, ?_, ?_, ?_⟩ <;> decide
